import Mathlib

/-!
Shallow embedding of the persistent key-value store of
src/persistentKeyValuePairs.h (template class persistentKeyValuePairs).

Modelling conventions, fixed once for the whole file:

* The data file is a list of bytes (each byte a natural number below 256).
  The int16_t block tag is stored little-endian, exactly as the ESP32
  (a little-endian machine) lays out an int16_t in memory.
* Keys and values are represented by their encoded byte sequences
  (without the terminating 0 for String types; the codec appends it).
  A KVConf record says, for the key type and the value type separately,
  whether the type is String (variable width, NUL-terminated on disk,
  with slack) or fixed width (sizeof given by the width field), mirroring
  the std::is_same<.,String> branches of the source.
* size_t is 32 bits (the ESP32 target of the source).
* The C++ expression  l + l * 0.2 + 0.5  (the PCT_FREE slack, source
  lines 269/276/524/531) is computed in double and truncated when added
  to the size_t blockSize.  Its exact rational value (12*l + 5)/10 is
  never an integer (12*l + 5 is never divisible by 10), and for l below
  2^16 the double rounding error is far smaller than the distance of
  (12*l + 5)/10 to the nearest integer, so the truncated result equals
  Nat division (12*l + 5) / 10.  slackAdd below uses that closed form.
* The balanced-search-tree container keyValuePairs<keyType, uint32_t>
  and the dynamic array vector<freeBlockType> are external collaborators
  whose sources are not part of the repository snapshot; following the
  specification they are modelled as an association list (insert fails
  with NOT_UNIQUE on a duplicate key, otherwise appends) and as a plain
  list with push_back and erase-by-index.  Out-of-memory failure of
  these containers, of malloc, and of file seek/read/write is injected
  through a Faults record; all claims about fault-free behaviour use
  noFaults.
* String concatenation while reading a stored String key or value
  (source lines 956/976) is assumed to have memory; no claim exercises
  that failure.
-/

namespace PKVS

/-- Error codes of persistentKeyValuePairs (source lines 80-88). -/
inductive ErrCode where
  | OK
  | NOT_FOUND
  | BAD_ALLOC
  | OUT_OF_RANGE
  | NOT_UNIQUE
  | DATA_CHANGED
  | FILE_IO_ERROR
  | NOT_WHILE_ITERATING
deriving DecidableEq, Repr

/-- Interpret a natural number as the int16_t it becomes after a
narrowing conversion (two's complement wrap), as in
(int16_t) blockSize at source lines 330/352/613/635. -/
def toInt16 (n : Nat) : Int :=
  if n % 65536 < 32768 then ((n % 65536 : Nat) : Int)
  else ((n % 65536 : Nat) : Int) - 65536

/-- Little-endian byte image of an int16_t value. -/
def encInt16 (t : Int) : List Nat :=
  [((t % 65536).toNat) % 256, ((t % 65536).toNat) / 256]

/-- Decode two little-endian bytes as an int16_t. -/
def decInt16 (b0 b1 : Nat) : Int :=
  let u := b0 % 256 + 256 * (b1 % 256)
  if u < 32768 then (u : Nat) else ((u : Nat) : Int) - 65536

/-- Read the int16_t block tag stored at a file offset. -/
def readTag (file : List Nat) (off : Nat) : Option Int :=
  if off + 2 ≤ file.length then
    some (decInt16 (file.getD off 0) (file.getD (off + 1) 0))
  else none

/-- Overwrite bytes of a file starting at an offset, extending the file
if the data runs past the end (filesystem write semantics used by the
source through File.write). -/
def writeAt (file : List Nat) (off : Nat) (data : List Nat) : List Nat :=
  file.take off ++ data ++ file.drop (off + data.length)

/-- Static description of the two template arguments: is the type
String (variable width) and, if not, its sizeof. -/
structure KVConf where
  keyIsStr : Bool
  keyWidth : Nat
  valIsStr : Bool
  valWidth : Nat
deriving DecidableEq

/-- Encoded bytes of a key as written into a block: Strings get a
terminating 0 (source line 334), fixed-width types are copied as is
(source line 336). -/
def encKey (c : KVConf) (k : List Nat) : List Nat :=
  if c.keyIsStr then k ++ [0] else k

/-- Encoded bytes of a value as written into a block. -/
def encVal (c : KVConf) (v : List Nat) : List Nat :=
  if c.valIsStr then v ++ [0] else v

/-- Number of bytes the key occupies inside a block:
length+1 for a String (source line 268), sizeof for fixed width. -/
def keyEncLen (c : KVConf) (k : List Nat) : Nat :=
  if c.keyIsStr then k.length + 1 else c.keyWidth

/-- Number of bytes the value occupies inside a block. -/
def valEncLen (c : KVConf) (v : List Nat) : Nat :=
  if c.valIsStr then v.length + 1 else c.valWidth

/-- Slack-augmented byte count for a String part of length l
(l includes the closing 0): the truncated value of the C++ double
expression l + l * 0.2 + 0.5 (see the file header for exactness). -/
def slackAdd (l : Nat) : Nat := (12 * l + 5) / 10

/-- dataSize computed by Insert step 1 and Update step 3:
tag + encoded key + encoded value. -/
def insDataSize (c : KVConf) (k v : List Nat) : Nat :=
  2 + keyEncLen c k + valEncLen c v

/-- blockSize computed by Insert step 1 and Update step 3 (newBlockSize):
tag, then key and value parts where String parts carry slack. -/
def insBlockSize (c : KVConf) (k v : List Nat) : Nat :=
  2 + (if c.keyIsStr then slackAdd (k.length + 1) else c.keyWidth)
    + (if c.valIsStr then slackAdd (v.length + 1) else c.valWidth)

/-- Element of the free block list (source lines 915-918). -/
structure FreeBlock where
  blockOffset : Nat
  blockSize : Int
deriving DecidableEq, Repr

/-- In-memory and on-disk state of one persistentKeyValuePairs
instance: the bound data file and its bytes, the separately tracked
__dataFileSize__, the key index, the free block list, the iterator
counter and the sticky lastErrorCode. -/
structure StoreState where
  dataFileOpen : Bool
  file : List Nat
  dataFileSize : Nat
  keyIndex : List (List Nat × Nat)
  freeBlocksList : List FreeBlock
  inIteration : Nat
  lastErrorCode : ErrCode
deriving DecidableEq

/-- Fault injection for the fallible primitives the source calls.
Each flag makes every call of its class fail inside one modelled
operation; rbSeekFail and rbWriteFail govern the file operations on
the roll-back paths separately from the primary ones. -/
structure Faults where
  ctorFail : Bool
  mallocFail : Bool
  kvpAllocFail : Bool
  pushFail : Bool
  openFail : Bool
  seekFail : Bool
  readFail : Bool
  writeFail : Bool
  rbSeekFail : Bool
  rbWriteFail : Bool
deriving DecidableEq

/-- The fault-free environment. -/
def noFaults : Faults :=
  ⟨false, false, false, false, false, false, false, false, false, false⟩

/-- Environment where only malloc fails (Insert step 5). -/
def mallocFault : Faults := { noFaults with mallocFail := true }

/-- Environment where only the free-list push_back fails. -/
def pushFault : Faults := { noFaults with pushFail := true }

/-- Lookup in the in-memory key index
(keyValuePairs<keyType, uint32_t>::find, modelled from the spec:
the ordered map lookup; the container source is not in the snapshot). -/
def kvpFind : List (List Nat × Nat) → List Nat → Option Nat
  | [], _ => none
  | p :: rest, k => if p.1 = k then some p.2 else kvpFind rest k

/-- Insert into the in-memory key index
(keyValuePairs<keyType, uint32_t>::insert, modelled from the spec:
fails with NOT_UNIQUE if the key is present, with BAD_ALLOC if memory
allocation fails, otherwise adds the pair). -/
def kvpInsert (f : Faults) (ki : List (List Nat × Nat)) (k : List Nat)
    (off : Nat) : Except ErrCode (List (List Nat × Nat)) :=
  match kvpFind ki k with
  | some _ => .error .NOT_UNIQUE
  | none => if f.kvpAllocFail then .error .BAD_ALLOC else .ok (ki ++ [(k, off)])

/-- Erase a key from the in-memory key index
(keyValuePairs<keyType, uint32_t>::erase, modelled from the spec). -/
def kvpErase (ki : List (List Nat × Nat)) (k : List Nat) :
    List (List Nat × Nat) :=
  ki.filter (fun p => decide (p.1 ≠ k))

/-- Overwrite the offset stored for a key, modelling the write through
the pointer returned by find (*blockOffset = newBlockOffset,
source line 668). -/
def kvpSetOffset (ki : List (List Nat × Nat)) (k : List Nat) (newOff : Nat) :
    List (List Nat × Nat) :=
  ki.map (fun p => if p.1 = k then (p.1, newOff) else p)

/-- push_back on the free block list
(vector<freeBlockType>::push_back, modelled from the spec: appends;
fails with BAD_ALLOC when memory allocation fails). -/
def pushBack (f : Faults) (fl : List FreeBlock) (b : FreeBlock) :
    Except ErrCode (List FreeBlock) :=
  if f.pushFail then .error .BAD_ALLOC else .ok (fl ++ [b])

/-- File seek to an absolute offset succeeds when the target lies
within [0, size] and no fault is injected. -/
def seekOk (fail : Bool) (file : List Nat) (off : Nat) : Bool :=
  !fail && decide (off ≤ file.length)

/-- Read n bytes at an offset; fails when the file is too short or a
fault is injected. -/
def readBytes (fail : Bool) (file : List Nat) (off n : Nat) :
    Option (List Nat) :=
  if !fail && decide (off + n ≤ file.length) then
    some ((file.drop off).take n)
  else none

/-- Read a String field: bytes until a 0 byte or end of file
(source lines 953-960); returns the bytes and the next file position. -/
def readStrFrom (file : List Nat) (p : Nat) : List Nat × Nat :=
  let s := (file.drop p).takeWhile (fun b => decide (b ≠ 0))
  (s, p + s.length + (if p + s.length < file.length then 1 else 0))

/-- Read the value field of a block starting at file position p
(second half of __readBlock__, source lines 970-988). -/
def readValFrom (c : KVConf) (f : Faults) (file : List Nat) (p : Nat) :
    Except ErrCode (List Nat) :=
  if c.valIsStr then .ok (readStrFrom file p).1
  else
    match readBytes f.readFail file p c.valWidth with
    | none => .error .FILE_IO_ERROR
    | some vb => .ok vb

/-- __readBlock__ (source lines 933-991): seek to the block start, read
the int16_t tag, stop there for a free block, otherwise read the key
and (unless skipValue) the value.  Returns the tag and the stored key
and value bytes, or the error code the source would leave in
lastErrorCode. -/
def readBlock (c : KVConf) (f : Faults) (file : List Nat) (off : Nat)
    (skipValue : Bool) : Except ErrCode (Int × List Nat × List Nat) :=
  if !(seekOk f.seekFail file off) then .error .FILE_IO_ERROR
  else
    match readBytes f.readFail file off 2 with
    | none => .error .FILE_IO_ERROR
    | some tb =>
      let bs := decInt16 (tb.getD 0 0) (tb.getD 1 0)
      if bs < 0 then .ok (bs, [], [])
      else
        match
          (if c.keyIsStr then some (readStrFrom file (off + 2))
           else (readBytes f.readFail file (off + 2) c.keyWidth).map
             (fun kb => (kb, off + 2 + c.keyWidth))) with
        | none => .error .FILE_IO_ERROR
        | some kp =>
          if skipValue then .ok (bs, kp.1, [])
          else
            match readValFrom c f file kp.2 with
            | .error e => .error e
            | .ok v => .ok (bs, kp.1, v)

/-- Value of an int16_t after conversion to a 32-bit size_t/uint32_t,
as happens in the comparisons and assignments of the best-fit search
(source lines 291-293 and 305): integer promotion then two's
complement conversion. -/
def u32ofI16 (s : Int) : Nat := (s % 4294967296).toNat

/-- One pass of the best-fit loop of Insert step 2 / Update step 6
(source lines 288-295 and 579-586): walk the free block list with the
running index, the best index so far and the minimal waste so far
(initially 0xFFFFFFFF).  All arithmetic on the int16_t blockSize is
done after its conversion to the unsigned size_t, as in the source. -/
def bestFitGo (dataSize : Nat) :
    List FreeBlock → Nat → Option Nat → Nat → Option Nat
  | [], _, best, _ => best
  | b :: rest, i, best, minWaste =>
    if u32ofI16 b.blockSize ≥ dataSize ∧
        u32ofI16 b.blockSize - dataSize < minWaste then
      bestFitGo dataSize rest (i + 1) (some i) (u32ofI16 b.blockSize - dataSize)
    else
      bestFitGo dataSize rest (i + 1) best minWaste

/-- freeBlockIndex after the best-fit loop (-1 becomes none). -/
def bestFitIndex (fl : List FreeBlock) (dataSize : Nat) : Option Nat :=
  bestFitGo dataSize fl 0 none 4294967295

/-- Steps 2-3 of Insert, duplicated verbatim as steps 6-7 of Update:
run the best-fit search; on a hit take the offset of the chosen entry
and adopt its full size, otherwise write at the end of the file with
the desired block size.  Returns (freeBlockIndex, blockOffset,
blockSize). -/
def chooseBlock (fl : List FreeBlock) (dataSize desired fileSize : Nat) :
    Option Nat × Nat × Nat :=
  match bestFitIndex fl dataSize with
  | none => (none, fileSize, desired)
  | some i =>
    (some i, (fl.getD i ⟨0, 0⟩).blockOffset, u32ofI16 (fl.getD i ⟨0, 0⟩).blockSize)

/-- Byte image written by the roll-back of a failed block write
(source lines 352-353 and 635-636): blockSize there is a size_t
variable, so  blockSize = (int16_t) -blockSize  sign-extends back to
32 bits and the write emits sizeof(size_t) = 4 bytes. -/
def rollbackTagBytes (bs : Nat) : List Nat :=
  let u := (4294967296 - bs % 4294967296) % 4294967296
  [u % 256, u / 256 % 256, u / 65536 % 256, u / 16777216 % 256]

/-- Insert (source lines 238-377).  The key and value arguments are the
encoded byte sequences of the two template-typed parameters. -/
def Insert (c : KVConf) (f : Faults) (st : StoreState)
    (key value : List Nat) : ErrCode × StoreState :=
  if !st.dataFileOpen then
    (.FILE_IO_ERROR, { st with lastErrorCode := .FILE_IO_ERROR })
  else if c.keyIsStr && f.ctorFail then
    (.BAD_ALLOC, { st with lastErrorCode := .BAD_ALLOC })
  else if c.valIsStr && f.ctorFail then
    (.BAD_ALLOC, { st with lastErrorCode := .BAD_ALLOC })
  else if st.inIteration ≠ 0 then
    (.NOT_WHILE_ITERATING, { st with lastErrorCode := .NOT_WHILE_ITERATING })
  else
    -- 1. data and block size
    let dataSize := insDataSize c key value
    let blockSize := insBlockSize c key value
    if blockSize > 32768 then
      (.BAD_ALLOC, { st with lastErrorCode := .BAD_ALLOC })
    else
      -- 2.-3. best-fit search and file position
      let cb := chooseBlock st.freeBlocksList dataSize blockSize st.dataFileSize
      let freeBlockIndex := cb.1
      let blockOffset := cb.2.1
      let blockSize := cb.2.2
      if !(seekOk f.seekFail st.file blockOffset) then
        (.FILE_IO_ERROR, { st with lastErrorCode := .FILE_IO_ERROR })
      else
        -- 4. insert into the in-memory key index
        match kvpInsert f st.keyIndex key blockOffset with
        | .error e => (e, { st with lastErrorCode := e })
        | .ok ki =>
          -- 5. build the block in a temporary buffer
          if f.mallocFail then
            (.BAD_ALLOC,
              { st with keyIndex := ki, lastErrorCode := .BAD_ALLOC })
          else
            let block := encInt16 (toInt16 blockSize) ++ encKey c key ++
              encVal c value ++ List.replicate (blockSize - dataSize) 0
            -- 6. write the block
            if f.writeFail then
              -- 7. (try to) roll back
              let st1 :=
                if seekOk f.rbSeekFail st.file blockOffset then
                  if f.rbWriteFail then { st with dataFileOpen := false }
                  else { st with
                    file := writeAt st.file blockOffset (rollbackTagBytes blockSize) }
                else { st with dataFileOpen := false }
              (.FILE_IO_ERROR, { st1 with keyIndex := kvpErase ki key,
                                          lastErrorCode := .FILE_IO_ERROR })
            else
              -- 7. roll out
              let file1 := writeAt st.file blockOffset block
              match freeBlockIndex with
              | none =>
                (.OK, { st with file := file1, keyIndex := ki,
                                dataFileSize := st.dataFileSize + blockSize })
              | some i =>
                (.OK, { st with file := file1, keyIndex := ki,
                                freeBlocksList := st.freeBlocksList.eraseIdx i })

/-- Update with a new value (source lines 471-681).  Case A overwrites
the value bytes in place; case B allocates a new block exactly like
Insert, writes the tag, key and new value there (dataSize bytes of the
newBlockSize-byte buffer, source line 629), marks the old block free on
disk, redirects the index entry, and pushes {*blockOffset, blockSize}
onto the free block list - after *blockOffset was already redirected to
the new offset and while blockSize still holds the negated old tag
(source lines 660-670). -/
def Update (c : KVConf) (f : Faults) (st : StoreState)
    (key newValue : List Nat) : ErrCode × StoreState :=
  if !st.dataFileOpen then
    (.FILE_IO_ERROR, { st with lastErrorCode := .FILE_IO_ERROR })
  else if c.keyIsStr && f.ctorFail then
    (.BAD_ALLOC, { st with lastErrorCode := .BAD_ALLOC })
  else if c.valIsStr && f.ctorFail then
    (.BAD_ALLOC, { st with lastErrorCode := .BAD_ALLOC })
  else
    -- 1. get blockOffset
    match kvpFind st.keyIndex key with
    | none => (.NOT_FOUND, st)
    | some blockOffset =>
      -- 2. read the block size and the stored key
      match readBlock c f st.file blockOffset true with
      | .error e => (e, { st with lastErrorCode := e })
      | .ok r =>
        let blockSize := r.1
        if blockSize ≤ 0 ∨ r.2.1 ≠ key then
          (.DATA_CHANGED, { st with lastErrorCode := .DATA_CHANGED })
        else
          -- 3. new data and block size
          let dataSize := insDataSize c key newValue
          let newBlockSize := insBlockSize c key newValue
          if newBlockSize > 32768 then
            (.BAD_ALLOC, { st with lastErrorCode := .BAD_ALLOC })
          else
          -- 4. in place when the new data fits the existing block
          if dataSize ≤ blockSize.toNat then
            let dataFileOffset := blockOffset + 2 + keyEncLen c key
            -- 5. write the new value
            if !(seekOk f.seekFail st.file dataFileOffset) then
              (.FILE_IO_ERROR, { st with lastErrorCode := .FILE_IO_ERROR })
            else if f.writeFail then
              (.FILE_IO_ERROR, { st with dataFileOpen := false,
                                         lastErrorCode := .FILE_IO_ERROR })
            else
              (.OK, { st with
                file := writeAt st.file dataFileOffset (encVal c newValue) })
          else
            -- 6.-7. best-fit search and file position (as Insert 2.-3.)
            let cb :=
              chooseBlock st.freeBlocksList dataSize newBlockSize st.dataFileSize
            let freeBlockIndex := cb.1
            let newBlockOffset := cb.2.1
            let newBlockSize := cb.2.2
            if !(seekOk f.seekFail st.file newBlockOffset) then
              (.FILE_IO_ERROR, { st with lastErrorCode := .FILE_IO_ERROR })
            -- 8. build the block
            else if f.mallocFail then
              (.BAD_ALLOC, { st with lastErrorCode := .BAD_ALLOC })
            -- 9. write dataSize bytes of the new block
            else if f.writeFail then
              -- 10. (try to) roll back
              let st1 :=
                if seekOk f.rbSeekFail st.file newBlockOffset then
                  if f.rbWriteFail then { st with dataFileOpen := false }
                  else { st with
                         file := writeAt st.file newBlockOffset
                           (rollbackTagBytes newBlockSize) }
                else { st with dataFileOpen := false }
              (.FILE_IO_ERROR, { st1 with lastErrorCode := .FILE_IO_ERROR })
            else
              let file1 := writeAt st.file newBlockOffset
                (encInt16 (toInt16 newBlockSize) ++ encKey c key ++
                 encVal c newValue)
              -- 11. roll out
              let dfs1 := match freeBlockIndex with
                | none => st.dataFileSize + newBlockSize
                | some _ => st.dataFileSize
              let fl1 := match freeBlockIndex with
                | none => st.freeBlocksList
                | some i => st.freeBlocksList.eraseIdx i
              -- mark the old block as free
              if !(seekOk f.seekFail file1 blockOffset) then
                (.FILE_IO_ERROR,
                  { st with file := file1, dataFileSize := dfs1,
                            freeBlocksList := fl1, dataFileOpen := false,
                            lastErrorCode := .FILE_IO_ERROR })
              else if f.writeFail then
                (.FILE_IO_ERROR,
                  { st with file := file1, dataFileSize := dfs1,
                            freeBlocksList := fl1, dataFileOpen := false,
                            lastErrorCode := .FILE_IO_ERROR })
              else
                let file2 := writeAt file1 blockOffset (encInt16 (-blockSize))
                -- update the key index through the found pointer
                let ki := kvpSetOffset st.keyIndex key newBlockOffset
                -- update the free block list: the source pushes
                -- {*blockOffset, blockSize} = (new offset, negated old tag)
                let fl2 := match pushBack f fl1
                    ⟨newBlockOffset, -blockSize⟩ with
                  | .error _ => fl1
                  | .ok l => l
                (.OK,
                  { st with file := file2, dataFileSize := dfs1,
                            keyIndex := ki, freeBlocksList := fl2 })

/-- FindBlockOffset (source lines 384-410): index lookup only.  A miss
returns NOT_FOUND without touching lastErrorCode (source lines
399-402). -/
def FindBlockOffset (c : KVConf) (f : Faults) (st : StoreState)
    (key : List Nat) : ErrCode × Option Nat × StoreState :=
  if c.keyIsStr && f.ctorFail then
    (.BAD_ALLOC, none, { st with lastErrorCode := .BAD_ALLOC })
  else
    match kvpFind st.keyIndex key with
    | some off => (.OK, some off, st)
    | none => (.NOT_FOUND, none, st)

/-- Delete (source lines 688-772).  Note that when the key is absent
the source returns the current (stale) lastErrorCode, because
FindBlockOffset reported NOT_FOUND without recording it (source lines
706-711); and that a failing push_back on the free block list is
ignored and Delete still returns OK (source lines 760-767). -/
def Delete (c : KVConf) (f : Faults) (st : StoreState) (key : List Nat) :
    ErrCode × StoreState :=
  if !st.dataFileOpen then
    (.FILE_IO_ERROR, { st with lastErrorCode := .FILE_IO_ERROR })
  else if c.keyIsStr && f.ctorFail then
    (.BAD_ALLOC, { st with lastErrorCode := .BAD_ALLOC })
  else if st.inIteration ≠ 0 then
    (.NOT_WHILE_ITERATING, { st with lastErrorCode := .NOT_WHILE_ITERATING })
  else
    -- 1. get blockOffset
    let fbo := FindBlockOffset c f st key
    match fbo.2.1 with
    | none => (fbo.2.2.lastErrorCode, fbo.2.2)
    | some blockOffset =>
      -- 2. read the block size
      if !(seekOk f.seekFail st.file blockOffset) then
        (.FILE_IO_ERROR, { st with lastErrorCode := .FILE_IO_ERROR })
      else
        match readBytes f.readFail st.file blockOffset 2 with
        | none => (.FILE_IO_ERROR, { st with lastErrorCode := .FILE_IO_ERROR })
        | some tb =>
          let blockSize := decInt16 (tb.getD 0 0) (tb.getD 1 0)
          if blockSize < 0 then
            (.DATA_CHANGED, { st with lastErrorCode := .DATA_CHANGED })
          else
            -- 3. erase the key from the index
            let ki := kvpErase st.keyIndex key
            -- 4. write back the negated block size
            if !(seekOk f.seekFail st.file blockOffset) then
              -- 5. (try to) roll back
              match kvpInsert f ki key blockOffset with
              | .error _ =>
                (.FILE_IO_ERROR,
                  { st with keyIndex := ki, dataFileOpen := false,
                            lastErrorCode := .FILE_IO_ERROR })
              | .ok ki2 =>
                (.FILE_IO_ERROR,
                  { st with keyIndex := ki2, lastErrorCode := .FILE_IO_ERROR })
            else if f.writeFail then
              match kvpInsert f ki key blockOffset with
              | .error _ =>
                (.FILE_IO_ERROR,
                  { st with keyIndex := ki, dataFileOpen := false,
                            lastErrorCode := .FILE_IO_ERROR })
              | .ok ki2 =>
                (.FILE_IO_ERROR,
                  { st with keyIndex := ki2, lastErrorCode := .FILE_IO_ERROR })
            else
              let file1 := writeAt st.file blockOffset (encInt16 (-blockSize))
              -- 5. add the block to the free block list (failure ignored)
              let fl := match pushBack f st.freeBlocksList
                  ⟨blockOffset, blockSize⟩ with
                | .error _ => st.freeBlocksList
                | .ok l => l
              (.OK, { st with keyIndex := ki, file := file1,
                              freeBlocksList := fl })

/-- Truncate (source lines 779-811): re-creates the data file at zero
length and clears both memory structures.  Only the iteration counter
is checked; the operation works even when no file is bound. -/
def Truncate (f : Faults) (st : StoreState) : ErrCode × StoreState :=
  if st.inIteration ≠ 0 then
    (.NOT_WHILE_ITERATING, { st with lastErrorCode := .NOT_WHILE_ITERATING })
  else if f.openFail then
    (.FILE_IO_ERROR, { st with dataFileOpen := false,
                               lastErrorCode := .FILE_IO_ERROR })
  else
    (.OK, { st with dataFileOpen := true, file := [], dataFileSize := 0,
                    keyIndex := [], freeBlocksList := [] })

/-- The scan loop of loadData (source lines 185-220), with explicit
fuel: none models the non-terminating scan the source performs when a
block tag is 0 (the loop then never advances).  A used block inserts
(key, blockOffset) into the index, a free block pushes
(blockOffset, -tag); the negation goes through the int16_t cast of the
source (line 210) and the offset advance adds the resulting int16_t to
the uint64_t offset. -/
def loadLoop (c : KVConf) (f : Faults) (file : List Nat) (fileSize : Nat) :
    Nat → Nat → List (List Nat × Nat) → List FreeBlock →
    Option (ErrCode × List (List Nat × Nat) × List FreeBlock)
  | 0, _, _, _ => none
  | fuel + 1, blockOffset, ki, fl =>
    if blockOffset < fileSize ∧ blockOffset ≤ 4294967295 then
      match readBlock c f file blockOffset true with
      | .error _ => some (.FILE_IO_ERROR, ki, fl)
      | .ok r =>
        let bs := r.1
        if bs > 0 then
          match kvpInsert f ki r.2.1 blockOffset with
          | .error e => some (e, ki, fl)
          | .ok ki2 =>
            loadLoop c f file fileSize fuel (blockOffset + bs.toNat) ki2 fl
        else
          let bsi := toInt16 (-bs).toNat
          match pushBack f fl ⟨blockOffset, bsi⟩ with
          | .error e => some (e, ki, fl)
          | .ok fl2 =>
            loadLoop c f file fileSize fuel
              ((((blockOffset : Int) + bsi) % 18446744073709551616).toNat)
              ki fl2
    else some (.OK, ki, fl)

/-- loadData (source lines 150-224).  The caller supplies the bytes of
the file named by the path ([] when the file did not exist and an empty
one is created); the path string itself plays no further role.  Any
previously bound file is closed and both memory structures are cleared
before loading - there is no wrong-state check.  none models the
non-terminating scan (see loadLoop). -/
def loadData (c : KVConf) (f : Faults) (st : StoreState)
    (contents : List Nat) : Option (ErrCode × StoreState) :=
  let st0 := { st with dataFileOpen := false, keyIndex := [],
                       freeBlocksList := ([] : List FreeBlock) }
  if f.openFail then
    some (.FILE_IO_ERROR, { st0 with file := [],
                                     lastErrorCode := .FILE_IO_ERROR })
  else
    let fileSize := contents.length
    match loadLoop c f contents fileSize (fileSize + 1) 0 [] [] with
    | none => none
    | some (e, ki, fl) =>
      if e = .OK then
        some (.OK,
          { st0 with dataFileOpen := true, file := contents,
                     dataFileSize := fileSize, keyIndex := ki,
                     freeBlocksList := fl })
      else
        some (e,
          { st0 with dataFileOpen := true, file := contents,
                     dataFileSize := fileSize, keyIndex := ki,
                     freeBlocksList := fl, lastErrorCode := e })

/-- The blocks recorded by the two in-memory structures, each as an
(offset, size) pair: an index entry contributes the int16_t tag read
from the file at its offset (the index itself stores no size), a free
list entry contributes its recorded size.  Sizes are byte counts, so
negative values collapse to 0 under Int.toNat. -/
def storeBlocks (st : StoreState) : List (Nat × Nat) :=
  st.keyIndex.map (fun p => (p.2, ((readTag st.file p.2).getD 0).toNat)) ++
    st.freeBlocksList.map (fun b => (b.blockOffset, b.blockSize.toNat))

/-- Fueled check that a list of (offset, size) blocks tiles [start, size)
contiguously: repeatedly consume the block starting exactly at the
current position; every block must be consumed exactly once and sizes
must be positive. -/
def contiguousGo : Nat → Nat → Nat → List (Nat × Nat) → Bool
  | 0, start, size, blocks => blocks.isEmpty && start == size
  | fuel + 1, start, size, blocks =>
    if blocks.isEmpty then start == size
    else
      match blocks.find? (fun p => p.1 == start) with
      | none => false
      | some p =>
        decide (0 < p.2) && contiguousGo fuel (start + p.2) size (blocks.erase p)

/-- The partition property of claim C1 and spec invariant I1: the given
blocks cover [0, size) exactly - distinct offsets, no overlap, no gap,
sizes summing to size. -/
def isPartitionOf (blocks : List (Nat × Nat)) (size : Nat) : Bool :=
  contiguousGo blocks.length 0 size blocks

/-- Template instantiation used by the concrete runs: a 4-byte
fixed-width key type (int on the ESP32) and a String value type. -/
def intStrConf : KVConf := ⟨false, 4, true, 0⟩

/-- A freshly opened, empty store (loadData on a nonexistent file). -/
def emptyOpenStore : StoreState := ⟨true, [], 0, [], [], 0, .OK⟩

/-- A store instance before any loadData call: no file bound. -/
def unopenedStore : StoreState := ⟨false, [], 0, [], [], 0, .OK⟩

/-- Run: Insert key 1 with the 4-byte value "aaaa" into the empty
store.  The block gets size 12 (2 tag + 4 key + 5 value+NUL, plus one
slack byte) at offset 0. -/
def runIns : ErrCode × StoreState :=
  Insert intStrConf noFaults emptyOpenStore [1, 0, 0, 0] [97, 97, 97, 97]

/-- Run: Update key 1 with a 10-byte value, which does not fit the
12-byte block and forces a relocation to offset 12. -/
def runUpd : ErrCode × StoreState :=
  Update intStrConf noFaults runIns.2 [1, 0, 0, 0] (List.replicate 10 97)

/-- A store with one live iterator: the state of runIns with the
in-iteration counter raised by an Iterator constructed through begin
(source lines 844-850). -/
def iterStore : StoreState := { runIns.2 with inIteration := 1 }

/-- A String value of 27301 characters.  Its computed block size is
2 + 4 + slackAdd 27302 = 32768: the boundary the Insert guard
(blockSize > 32768, source line 281) fails to reject. -/
def bigVal : List Nat := List.replicate 27301 97

/-- Run: Insert key 2 with the 27301-character value into the empty
store. -/
def runBig : ErrCode × StoreState :=
  Insert intStrConf noFaults emptyOpenStore [2, 0, 0, 0] bigVal

/-- Unwrap the state of a loadData result ([] state if it diverged). -/
def stOf (r : Option (ErrCode × StoreState)) : StoreState :=
  (r.getD (.OK, unopenedStore)).2

/-- Run for the sticky error code: Insert before any Open fails with
FILE_IO_ERROR, which is recorded. -/
def c7r1 : ErrCode × StoreState :=
  Insert intStrConf noFaults unopenedStore [7, 0, 0, 0] [97]

/-- Then Open succeeds on an empty file (sticky code survives). -/
def c7r2 : Option (ErrCode × StoreState) :=
  loadData intStrConf noFaults c7r1.2 []

/-- Then Insert key 7 succeeds. -/
def c7r3 : ErrCode × StoreState :=
  Insert intStrConf noFaults (stOf c7r2) [7, 0, 0, 0] [97]

/-- Then Insert key 7 again fails with NOT_UNIQUE, which overwrites the
previously recorded FILE_IO_ERROR. -/
def c7r4 : ErrCode × StoreState :=
  Insert intStrConf noFaults c7r3.2 [7, 0, 0, 0] [98]

/-- A bound store holding one in-use block of size 6 at offset 0 (tag
6, then the 4-byte key 1), reachable by Open of a file with that
content. -/
def stDel : StoreState :=
  ⟨true, [6, 0, 1, 0, 0, 0], 6, [([1, 0, 0, 0], 0)], [], 0, .OK⟩

/-- C1.  The claim is violated by the code: after Open of an empty
store, a successful Insert and a successful relocating Update, the
blocks recorded in the key index and the free-block registry no longer
partition [0, fileSize).  The partition holds after the Insert, but the
relocating Update pushes (new offset, negated old size) onto the
registry instead of (old offset, old size) - source lines 660-670 - so
the old block at offset 0 is in neither structure and offset 12 is
referenced twice. -/
theorem C1_partition_violated_by_relocating_update :
    runIns.1 = ErrCode.OK ∧ runUpd.1 = ErrCode.OK ∧
    isPartitionOf (storeBlocks runIns.2) runIns.2.dataFileSize = true ∧
    isPartitionOf (storeBlocks runUpd.2) runUpd.2.dataFileSize = false := by
  decide

/-- C2.  The claim is violated by the code: after the successful
relocating Update of runUpd (old block at offset 0 of size 12, new
block at offset 12), the key index does map the key to the new offset,
but the free-block registry receives the entry (12, -12) - the new
offset with the negated old size - instead of (0, 12), because the
source pushes {*blockOffset, blockSize} after *blockOffset was already
redirected and while blockSize still holds the negated tag (source
lines 660-670). -/
theorem C2_relocating_update_pushes_wrong_free_entry :
    runUpd.1 = ErrCode.OK ∧
    runUpd.2.keyIndex = [([1, 0, 0, 0], 12)] ∧
    runUpd.2.freeBlocksList = [⟨12, -12⟩] ∧
    (⟨0, 12⟩ : FreeBlock) ∉ runUpd.2.freeBlocksList := by
  decide

/-- C3.  The claim is violated by the code: reopening the data file of
runUpd rebuilds the free-block registry as [(0, 12)] (the scan finds
the negated tag of the old block at offset 0), while the registry held
in memory immediately before the close is [(12, -12)], so the two are
not equal as multisets.  The key index does coincide. -/
theorem C3_reload_free_list_differs :
    (loadData intStrConf noFaults runUpd.2 runUpd.2.file).map Prod.fst =
      some ErrCode.OK ∧
    (loadData intStrConf noFaults runUpd.2 runUpd.2.file).map
      (fun r => r.2.freeBlocksList) = some [⟨0, 12⟩] ∧
    runUpd.2.freeBlocksList = [⟨12, -12⟩] ∧
    ¬ List.Perm [(⟨0, 12⟩ : FreeBlock)] [⟨12, -12⟩] := by
  decide

/-- C4 (amended).  While at least one iterator is live
(inIteration > 0) on a store with a bound data file, Insert, Delete and
Truncate return NOT_WHILE_ITERATING and leave the whole state - key
index, free-block registry, data file - unchanged except for the sticky
error code. -/
theorem C4_structural_mutators_fail_while_iterating (c : KVConf)
    (st : StoreState) (k v : List Nat)
    (hOpen : st.dataFileOpen = true) (hIter : st.inIteration ≠ 0) :
    Insert c noFaults st k v =
      (.NOT_WHILE_ITERATING,
        { st with lastErrorCode := .NOT_WHILE_ITERATING }) ∧
    Delete c noFaults st k =
      (.NOT_WHILE_ITERATING,
        { st with lastErrorCode := .NOT_WHILE_ITERATING }) ∧
    Truncate noFaults st =
      (.NOT_WHILE_ITERATING,
        { st with lastErrorCode := .NOT_WHILE_ITERATING }) := by
  refine ⟨?_, ?_, ?_⟩ <;> simp [Insert, Delete, Truncate, noFaults, hOpen, hIter]

/-- Witness for C4: the amended theorem applied to a concrete store
with a live iterator. -/
theorem C4_structural_mutators_fail_while_iterating_witness :
    (iterStore.dataFileOpen = true ∧ iterStore.inIteration ≠ 0) ∧
    (Insert intStrConf noFaults iterStore [1, 0, 0, 0] [97] =
      (.NOT_WHILE_ITERATING,
        { iterStore with lastErrorCode := .NOT_WHILE_ITERATING }) ∧
     Delete intStrConf noFaults iterStore [1, 0, 0, 0] =
      (.NOT_WHILE_ITERATING,
        { iterStore with lastErrorCode := .NOT_WHILE_ITERATING }) ∧
     Truncate noFaults iterStore =
      (.NOT_WHILE_ITERATING,
        { iterStore with lastErrorCode := .NOT_WHILE_ITERATING })) :=
  ⟨by decide,
   C4_structural_mutators_fail_while_iterating intStrConf iterStore
     [1, 0, 0, 0] [97] (by decide) (by decide)⟩

/-- C4, counterexample to the claim as stated: Open (loadData) performs
no iteration check - while an iterator is live it returns OK, not the
wrong-state error, and it mutates the in-memory structures (here it
empties the key index by loading an empty file). -/
theorem C4_open_ignores_iteration :
    iterStore.inIteration ≠ 0 ∧ iterStore.keyIndex ≠ [] ∧
    (loadData intStrConf noFaults iterStore []).map Prod.fst =
      some ErrCode.OK ∧
    (loadData intStrConf noFaults iterStore []).map (fun r => r.2.keyIndex) =
      some [] := by
  decide

/-- C6 (amended).  Open on an instance whose data file is already bound
does not fail with the wrong-state error: it closes the bound file,
clears both in-memory structures and loads the newly named data file
(here an empty one), replacing the previous binding.  Only the
iteration counter and the sticky error code survive. -/
theorem C6_reopen_replaces_binding (st : StoreState)
    (hOpen : st.dataFileOpen = true) :
    loadData intStrConf noFaults st [] =
      some (.OK, { st with dataFileOpen := true, file := [],
                           dataFileSize := 0, keyIndex := [],
                           freeBlocksList := [] }) := by
  rfl

/-- Witness for C6: the amended theorem applied to the bound store of
runIns. -/
theorem C6_reopen_replaces_binding_witness :
    runIns.2.dataFileOpen = true ∧
    loadData intStrConf noFaults runIns.2 [] =
      some (.OK, { runIns.2 with dataFileOpen := true, file := [],
                                 dataFileSize := 0, keyIndex := [],
                                 freeBlocksList := [] }) :=
  ⟨by decide, C6_reopen_replaces_binding runIns.2 (by decide)⟩

/-- C6, counterexample to the claim as stated: loadData on the store of
runIns, which already has a data file bound and a nonempty index,
returns OK - not the wrong-state error - and replaces the in-memory
structures instead of leaving them unchanged. -/
theorem C6_open_while_bound_succeeds :
    runIns.2.dataFileOpen = true ∧ runIns.2.keyIndex ≠ [] ∧
    (loadData intStrConf noFaults runIns.2 []).map Prod.fst =
      some ErrCode.OK ∧
    (loadData intStrConf noFaults runIns.2 []).map Prod.fst ≠
      some ErrCode.NOT_WHILE_ITERATING ∧
    (loadData intStrConf noFaults runIns.2 []).map (fun r => r.2.keyIndex) =
      some [] := by
  decide

/-- Reading the tag at offset 0 of a file with at least two bytes. -/
theorem readTag_cons2 (b0 b1 : Nat) (rest : List Nat) :
    readTag (b0 :: b1 :: rest) 0 = some (decInt16 b0 b1) := by
  have h : 0 + 2 ≤ (b0 :: b1 :: rest).length := by
    simp [List.length_cons]
  rw [readTag, if_pos h]
  rfl

/-- Insert into a freshly opened empty store, fault-free: when the
computed block size passes the guard, the block is appended at offset
0 and the key indexed there. -/
theorem Insert_emptyOpenStore (c : KVConf) (k v : List Nat)
    (hbs : insBlockSize c k v ≤ 32768) :
    Insert c noFaults emptyOpenStore k v =
      (.OK, { emptyOpenStore with
        file := encInt16 (toInt16 (insBlockSize c k v)) ++ encKey c k ++
          encVal c v ++ List.replicate (insBlockSize c k v - insDataSize c k v) 0,
        keyIndex := [(k, 0)],
        dataFileSize := insBlockSize c k v }) := by
  have hgt : ¬ insBlockSize c k v > 32768 := Nat.not_lt.mpr hbs
  simp only [Insert, emptyOpenStore, noFaults, Bool.not_true, Bool.and_false,
    Bool.false_eq_true, if_false, ite_false, hgt, chooseBlock, bestFitIndex,
    bestFitGo, seekOk, kvpInsert, kvpFind, writeAt, List.take_nil,
    List.drop_nil, List.append_nil, List.nil_append]
  norm_num

/-- C5.  The claim is violated by the code: the guard of Insert rejects
only computed block sizes above 32768 (source line 281), not above
32767.  For a 27301-character String value the computed block size is
exactly 32768, Insert returns OK and writes the block, and the int16_t
tag written for it wraps to -32768 - an in-use block that reads back
as free. -/
theorem C5_boundary_32768_accepted :
    insBlockSize intStrConf [2, 0, 0, 0] bigVal = 32768 ∧
    runBig.1 = ErrCode.OK ∧
    runBig.2.file ≠ [] ∧
    readTag runBig.2.file 0 = some (-32768) := by
  have hlen : bigVal.length = 27301 := by rw [bigVal, List.length_replicate]
  have hbs : insBlockSize intStrConf [2, 0, 0, 0] bigVal = 32768 := by
    rw [insBlockSize, hlen]; rfl
  have hrun := Insert_emptyOpenStore intStrConf [2, 0, 0, 0] bigVal
    (by rw [hbs])
  have htag : encInt16 (toInt16 (insBlockSize intStrConf [2, 0, 0, 0] bigVal)) =
      [0, 128] := by rw [hbs]; rfl
  have hfile : runBig.2.file = 0 :: 128 ::
      (encKey intStrConf [2, 0, 0, 0] ++ encVal intStrConf bigVal ++
        List.replicate (insBlockSize intStrConf [2, 0, 0, 0] bigVal -
          insDataSize intStrConf [2, 0, 0, 0] bigVal) 0) := by
    rw [runBig, hrun]
    simp only [htag, List.cons_append, List.nil_append, List.append_assoc]
  refine ⟨hbs, ?_, ?_, ?_⟩
  · rw [runBig, hrun]
  · rw [hfile]; exact List.cons_ne_nil 0 _
  · rw [hfile, readTag_cons2]
    rfl

/-- C7, counterexample to the claim as stated: lastErrorCode is a
single enum value, not a bitset, and it is overwritten, not
OR-accumulated.  In the run c7r1-c7r4 two distinct error kinds occur
after the last clear - FILE_IO_ERROR (recorded) and NOT_UNIQUE - yet
the queried flag value after the batch is exactly NOT_UNIQUE and holds
no trace of FILE_IO_ERROR, so it does not equal the union of the error
kinds that occurred. -/
theorem C7_sticky_code_is_not_a_union :
    c7r1.1 = ErrCode.FILE_IO_ERROR ∧
    c7r2.map Prod.fst = some ErrCode.OK ∧
    (stOf c7r2).lastErrorCode = ErrCode.FILE_IO_ERROR ∧
    c7r3.1 = ErrCode.OK ∧
    c7r4.1 = ErrCode.NOT_UNIQUE ∧
    c7r4.2.lastErrorCode = ErrCode.NOT_UNIQUE ∧
    c7r4.2.lastErrorCode ≠ ErrCode.FILE_IO_ERROR := by
  decide

/-- C7 (amended).  An operation that records an error overwrites the
sticky per-instance last-error code with its own error code, regardless
of what was recorded before: a duplicate Insert leaves exactly
NOT_UNIQUE in lastErrorCode whatever the previous sticky value was, so
after a batch the queried code is the most recent recorded error, not
the union of all errors. -/
theorem C7_sticky_code_overwritten (c : KVConf) (st : StoreState)
    (k v : List Nat) (o : Nat)
    (hOpen : st.dataFileOpen = true) (hIter : st.inIteration = 0)
    (hDup : kvpFind st.keyIndex k = some o)
    (hSize : insBlockSize c k v ≤ 32768)
    (hSeek : (chooseBlock st.freeBlocksList (insDataSize c k v)
      (insBlockSize c k v) st.dataFileSize).2.1 ≤ st.file.length) :
    Insert c noFaults st k v =
      (.NOT_UNIQUE, { st with lastErrorCode := .NOT_UNIQUE }) := by
  have hgt : ¬ insBlockSize c k v > 32768 := Nat.not_lt.mpr hSize
  simp [Insert, noFaults, hOpen, hIter, hgt, hDup, kvpInsert, seekOk, hSeek]

/-- Witness for the amended C7: a duplicate Insert on the store of
runIns, whose sticky code is OK, records NOT_UNIQUE. -/
theorem C7_sticky_code_overwritten_witness :
    (runIns.2.dataFileOpen = true ∧ runIns.2.inIteration = 0 ∧
     kvpFind runIns.2.keyIndex [1, 0, 0, 0] = some 0 ∧
     insBlockSize intStrConf [1, 0, 0, 0] [98] ≤ 32768 ∧
     (chooseBlock runIns.2.freeBlocksList
       (insDataSize intStrConf [1, 0, 0, 0] [98])
       (insBlockSize intStrConf [1, 0, 0, 0] [98])
       runIns.2.dataFileSize).2.1 ≤ runIns.2.file.length) ∧
    Insert intStrConf noFaults runIns.2 [1, 0, 0, 0] [98] =
      (.NOT_UNIQUE, { runIns.2 with lastErrorCode := .NOT_UNIQUE }) :=
  ⟨by decide,
   C7_sticky_code_overwritten intStrConf runIns.2 [1, 0, 0, 0] [98] 0
     (by decide) (by decide) (by decide) (by decide) (by decide)⟩

/-- C9.  When the key is new, the computed block size passes the guard
and the chosen block offset is seekable, but malloc of the temporary
block buffer fails (Insert step 5, source lines 322-327), Insert
returns BAD_ALLOC and the key stays in the in-memory index, mapped to
the chosen block offset, while the data file, the free-block registry
and the recorded file size are untouched: the failed Insert is not
rolled back on this path. -/
theorem C9_insert_malloc_failure_keeps_index_entry (c : KVConf)
    (st : StoreState) (k v : List Nat)
    (hOpen : st.dataFileOpen = true) (hIter : st.inIteration = 0)
    (hNew : kvpFind st.keyIndex k = none)
    (hSize : insBlockSize c k v ≤ 32768)
    (hSeek : (chooseBlock st.freeBlocksList (insDataSize c k v)
      (insBlockSize c k v) st.dataFileSize).2.1 ≤ st.file.length) :
    Insert c mallocFault st k v =
      (.BAD_ALLOC,
        { st with
          keyIndex := st.keyIndex ++
            [(k, (chooseBlock st.freeBlocksList (insDataSize c k v)
              (insBlockSize c k v) st.dataFileSize).2.1)],
          lastErrorCode := .BAD_ALLOC }) := by
  have hgt : ¬ insBlockSize c k v > 32768 := Nat.not_lt.mpr hSize
  simp [Insert, mallocFault, noFaults, hOpen, hIter, hgt, hNew, kvpInsert,
        seekOk, hSeek]

/-- Witness for C9: Insert of the key 1 into the empty store with a
failing malloc leaves ([1,0,0,0], 0) in the index. -/
theorem C9_insert_malloc_failure_keeps_index_entry_witness :
    (emptyOpenStore.dataFileOpen = true ∧ emptyOpenStore.inIteration = 0 ∧
     kvpFind emptyOpenStore.keyIndex [1, 0, 0, 0] = none ∧
     insBlockSize intStrConf [1, 0, 0, 0] [97] ≤ 32768 ∧
     (chooseBlock emptyOpenStore.freeBlocksList
       (insDataSize intStrConf [1, 0, 0, 0] [97])
       (insBlockSize intStrConf [1, 0, 0, 0] [97])
       emptyOpenStore.dataFileSize).2.1 ≤ emptyOpenStore.file.length) ∧
    Insert intStrConf mallocFault emptyOpenStore [1, 0, 0, 0] [97] =
      (.BAD_ALLOC,
        { emptyOpenStore with
          keyIndex := emptyOpenStore.keyIndex ++
            [([1, 0, 0, 0], (chooseBlock emptyOpenStore.freeBlocksList
              (insDataSize intStrConf [1, 0, 0, 0] [97])
              (insBlockSize intStrConf [1, 0, 0, 0] [97])
              emptyOpenStore.dataFileSize).2.1)],
          lastErrorCode := .BAD_ALLOC }) :=
  ⟨by decide,
   C9_insert_malloc_failure_keeps_index_entry intStrConf emptyOpenStore
     [1, 0, 0, 0] [97] (by decide) (by decide) (by decide) (by decide)
     (by decide)⟩

/-- Element i of the two tag bytes read from a file. -/
theorem getD_drop_take_two (l : List Nat) (off i : Nat) (hi : i < 2)
    (h : off + i < l.length) :
    ((l.drop off).take 2).getD i 0 = l.getD (off + i) 0 := by
  have h1 : i < ((l.drop off).take 2).length := by
    simp [List.length_take, List.length_drop]
    omega
  rw [List.getD_eq_getElem _ _ h1, List.getD_eq_getElem _ _ h]
  simp [List.getElem_take, List.getElem_drop]

/-- C10.  Delete of a present key whose on-disk tag is readable and
non-negative, in an environment where push_back on the free-block
registry fails: Delete still returns OK, the key is erased from the
index, the on-disk tag is overwritten with its negative, and the
registry is left exactly as it was - it holds no entry for the freed
block. -/
theorem C10_delete_push_failure_still_ok (c : KVConf) (st : StoreState)
    (k : List Nat) (off : Nat)
    (hOpen : st.dataFileOpen = true) (hIter : st.inIteration = 0)
    (hFind : kvpFind st.keyIndex k = some off)
    (hLen : off + 2 ≤ st.file.length)
    (hTag : 0 ≤ decInt16 (st.file.getD off 0) (st.file.getD (off + 1) 0)) :
    Delete c pushFault st k =
      (.OK, { st with
        keyIndex := kvpErase st.keyIndex k,
        file := writeAt st.file off (encInt16
          (-(decInt16 (st.file.getD off 0) (st.file.getD (off + 1) 0)))) }) := by
  have hoff : off ≤ st.file.length := by omega
  have hb0 : ((st.file.drop off).take 2).getD 0 0 = st.file.getD off 0 := by
    have := getD_drop_take_two st.file off 0 (by omega) (by omega)
    simpa using this
  have hb1 : ((st.file.drop off).take 2).getD 1 0 = st.file.getD (off + 1) 0 :=
    getD_drop_take_two st.file off 1 (by omega) (by omega)
  have hneg : ¬ decInt16 (st.file.getD off 0) (st.file.getD (off + 1) 0) < 0 :=
    not_lt.mpr hTag
  simp [Delete, FindBlockOffset, pushFault, noFaults, hOpen, hIter, hFind,
        seekOk, readBytes, hLen, hoff, hb0, hb1, hneg, pushBack]
  simpa [List.getD] using hTag

/-- Witness for C10: Delete of key 1 on stDel with a failing push_back
returns OK, negates the tag 6 at offset 0 and leaves the registry
empty. -/
theorem C10_delete_push_failure_still_ok_witness :
    (stDel.dataFileOpen = true ∧ stDel.inIteration = 0 ∧
     kvpFind stDel.keyIndex [1, 0, 0, 0] = some 0 ∧
     0 + 2 ≤ stDel.file.length ∧
     0 ≤ decInt16 (stDel.file.getD 0 0) (stDel.file.getD (0 + 1) 0)) ∧
    Delete intStrConf pushFault stDel [1, 0, 0, 0] =
      (.OK, { stDel with
        keyIndex := kvpErase stDel.keyIndex [1, 0, 0, 0],
        file := writeAt stDel.file 0 (encInt16
          (-(decInt16 (stDel.file.getD 0 0) (stDel.file.getD (0 + 1) 0)))) }) :=
  ⟨by decide,
   C10_delete_push_failure_still_ok intStrConf stDel [1, 0, 0, 0] 0
     (by decide) (by decide) (by decide) (by decide) (by decide)⟩

/-- An int16_t value in [0, 2^32) converts to size_t as its toNat. -/
theorem u32ofI16_eq_toNat (s : Int) (h0 : 0 ≤ s) (h1 : s < 4294967296) :
    u32ofI16 s = s.toNat := by
  unfold u32ofI16
  rw [Int.emod_eq_of_lt h0 h1]

/-- Invariant characterisation of the best-fit loop: starting from an
accumulator (best, minWaste), either nothing in the remaining list
beats minWaste and the accumulator survives, or the loop returns the
position of an entry that fits, beats minWaste, and has minimal waste
among all fitting entries of the remaining list. -/
theorem bestFitGo_min (d : Nat) :
    ∀ (l : List FreeBlock) (i : Nat) (best : Option Nat) (mw : Nat),
      ((∀ b ∈ l, d ≤ u32ofI16 b.blockSize → mw ≤ u32ofI16 b.blockSize - d) →
        bestFitGo d l i best mw = best) ∧
      (∀ b0 ∈ l, d ≤ u32ofI16 b0.blockSize → u32ofI16 b0.blockSize - d < mw →
        ∃ j, j < l.length ∧ bestFitGo d l i best mw = some (i + j) ∧
          d ≤ u32ofI16 (l.getD j ⟨0, 0⟩).blockSize ∧
          u32ofI16 (l.getD j ⟨0, 0⟩).blockSize - d < mw ∧
          ∀ b ∈ l, d ≤ u32ofI16 b.blockSize →
            u32ofI16 (l.getD j ⟨0, 0⟩).blockSize - d ≤
              u32ofI16 b.blockSize - d) := by
  intro l
  induction l with
  | nil =>
    intro i best mw
    constructor
    · intro _; rfl
    · intro b0 hb0; exact absurd hb0 (List.not_mem_nil b0)
  | cons b rest ih =>
    intro i best mw
    by_cases hg : u32ofI16 b.blockSize ≥ d ∧ u32ofI16 b.blockSize - d < mw
    · have hgo : bestFitGo d (b :: rest) i best mw =
          bestFitGo d rest (i + 1) (some i) (u32ofI16 b.blockSize - d) := by
        simp [bestFitGo, hg]
      constructor
      · intro hall
        exact absurd (hall b (List.mem_cons_self b rest) hg.1)
          (not_le.mpr hg.2)
      · intro b0 hb0 hf0 hl0
        by_cases hrest : ∃ b1 ∈ rest, d ≤ u32ofI16 b1.blockSize ∧
            u32ofI16 b1.blockSize - d < u32ofI16 b.blockSize - d
        · obtain ⟨b1, hb1, hf1, hl1⟩ := hrest
          obtain ⟨j1, hj1len, hj1go, hj1fit, hj1lt, hj1min⟩ :=
            (ih (i + 1) (some i) (u32ofI16 b.blockSize - d)).2 b1 hb1 hf1 hl1
          refine ⟨j1 + 1, by simp only [List.length_cons]; omega, ?_, ?_, ?_, ?_⟩
          · rw [hgo, hj1go]
            congr 1
            omega
          · exact hj1fit
          · exact lt_trans hj1lt hg.2
          · intro b2 hb2 hf2
            rcases List.mem_cons.mp hb2 with h2 | h2
            · rw [h2]
              exact le_of_lt hj1lt
            · exact hj1min b2 h2 hf2
        · push_neg at hrest
          have hall : ∀ b1 ∈ rest, d ≤ u32ofI16 b1.blockSize →
              u32ofI16 b.blockSize - d ≤ u32ofI16 b1.blockSize - d := by
            intro b1 hb1 hf1
            exact hrest b1 hb1 hf1
          have hgo2 := (ih (i + 1) (some i) (u32ofI16 b.blockSize - d)).1 hall
          refine ⟨0, by simp, ?_, ?_, ?_, ?_⟩
          · rw [hgo, hgo2]
            simp
          · exact hg.1
          · exact hg.2
          · intro b2 hb2 hf2
            rcases List.mem_cons.mp hb2 with h2 | h2
            · rw [h2]
              exact le_refl _
            · exact hall b2 h2 hf2
    · have hgo : bestFitGo d (b :: rest) i best mw =
          bestFitGo d rest (i + 1) best mw := by
        simp only [bestFitGo, if_neg hg]
      constructor
      · intro hall
        rw [hgo]
        exact (ih (i + 1) best mw).1
          (fun b1 hb1 hf1 => hall b1 (List.mem_cons_of_mem b hb1) hf1)
      · intro b0 hb0 hf0 hl0
        rcases List.mem_cons.mp hb0 with h0 | h0
        · exact absurd ⟨h0 ▸ hf0, h0 ▸ hl0⟩ hg
        · obtain ⟨j1, hj1len, hj1go, hj1fit, hj1lt, hj1min⟩ :=
            (ih (i + 1) best mw).2 b0 h0 hf0 hl0
          refine ⟨j1 + 1, by simp only [List.length_cons]; omega, ?_, ?_, ?_, ?_⟩
          · rw [hgo, hj1go]
            congr 1
            omega
          · exact hj1fit
          · exact hj1lt
          · intro b2 hb2 hf2
            rcases List.mem_cons.mp hb2 with h2 | h2
            · have hmw : mw ≤ u32ofI16 b.blockSize - d := by
                by_contra hc
                exact hg ⟨h2 ▸ hf2, not_le.mp hc⟩
              rw [h2]
              exact le_trans (le_of_lt hj1lt) hmw
            · exact hj1min b2 h2 hf2

/-- C8.  Best-fit allocation as run by Insert step 2-3 and by a
relocating Update step 6-7 (both through chooseBlock): on a registry
whose entries are genuine free blocks (positive int16_t sizes), if some
entry has size at least dataSize then the search returns an entry of
minimal size - dataSize among all large-enough entries, and its offset
and full size are adopted for the new block (no split); if no entry is
large enough, the block is placed at the current end of the file with
the desired block size. -/
theorem C8_best_fit_allocation (fl : List FreeBlock) (d desired fs : Nat)
    (hrange : ∀ b ∈ fl, 0 < b.blockSize ∧ b.blockSize ≤ 32767) :
    ((∃ b ∈ fl, d ≤ b.blockSize.toNat) →
      ∃ j, bestFitIndex fl d = some j ∧ j < fl.length ∧
        d ≤ (fl.getD j ⟨0, 0⟩).blockSize.toNat ∧
        (∀ b ∈ fl, d ≤ b.blockSize.toNat →
          (fl.getD j ⟨0, 0⟩).blockSize.toNat - d ≤ b.blockSize.toNat - d) ∧
        chooseBlock fl d desired fs =
          (some j, (fl.getD j ⟨0, 0⟩).blockOffset,
            (fl.getD j ⟨0, 0⟩).blockSize.toNat)) ∧
    ((∀ b ∈ fl, b.blockSize.toNat < d) →
      bestFitIndex fl d = none ∧
      chooseBlock fl d desired fs = (none, fs, desired)) := by
  have hu : ∀ b ∈ fl, u32ofI16 b.blockSize = b.blockSize.toNat := by
    intro b hb
    exact u32ofI16_eq_toNat b.blockSize (le_of_lt (hrange b hb).1)
      (by have := (hrange b hb).2; omega)
  constructor
  · rintro ⟨b, hb, hfit⟩
    have hfit32 : d ≤ u32ofI16 b.blockSize := by rw [hu b hb]; exact hfit
    have hlt : u32ofI16 b.blockSize - d < 4294967295 := by
      rw [hu b hb]
      have h1 : b.blockSize ≤ 32767 := (hrange b hb).2
      have h2 : b.blockSize.toNat ≤ 32767 := by omega
      omega
    obtain ⟨j, hjlen, hjgo, hjfit, _, hjmin⟩ :=
      (bestFitGo_min d fl 0 none 4294967295).2 b hb hfit32 hlt
    have hmem : fl.getD j ⟨0, 0⟩ ∈ fl := by
      rw [List.getD_eq_getElem fl ⟨0, 0⟩ hjlen]
      exact List.getElem_mem hjlen
    have hidx : bestFitIndex fl d = some j := by
      rw [bestFitIndex, hjgo]
      simp
    refine ⟨j, hidx, hjlen, ?_, ?_, ?_⟩
    · rw [← hu _ hmem]
      exact hjfit
    · intro b2 hb2 hf2
      have := hjmin b2 hb2 (by rw [hu b2 hb2]; exact hf2)
      rw [hu _ hmem, hu b2 hb2] at this
      exact this
    · simp only [chooseBlock, hidx]
      rw [hu _ hmem]
  · intro hnone
    have hidx : bestFitIndex fl d = none := by
      rw [bestFitIndex]
      exact (bestFitGo_min d fl 0 none 4294967295).1
        (fun b hb hf => absurd hf (by rw [hu b hb]; exact not_le.mpr (hnone b hb)))
    exact ⟨hidx, by simp [chooseBlock, hidx]⟩

/-- Witness for C8: on the registry [(0,10), (10,5), (15,7)] with
dataSize 6 the search must choose the entry of size 7 at offset 15
(waste 1), and on the same registry with dataSize 11 it must append. -/
theorem C8_best_fit_allocation_witness :
    (∀ b ∈ [FreeBlock.mk 0 10, FreeBlock.mk 10 5, FreeBlock.mk 15 7],
      0 < b.blockSize ∧ b.blockSize ≤ 32767) ∧
    (((∃ b ∈ [FreeBlock.mk 0 10, FreeBlock.mk 10 5, FreeBlock.mk 15 7],
        6 ≤ b.blockSize.toNat) →
      ∃ j, bestFitIndex [FreeBlock.mk 0 10, FreeBlock.mk 10 5,
          FreeBlock.mk 15 7] 6 = some j ∧
        j < [FreeBlock.mk 0 10, FreeBlock.mk 10 5, FreeBlock.mk 15 7].length ∧
        6 ≤ ([FreeBlock.mk 0 10, FreeBlock.mk 10 5,
          FreeBlock.mk 15 7].getD j ⟨0, 0⟩).blockSize.toNat ∧
        (∀ b ∈ [FreeBlock.mk 0 10, FreeBlock.mk 10 5, FreeBlock.mk 15 7],
          6 ≤ b.blockSize.toNat →
          ([FreeBlock.mk 0 10, FreeBlock.mk 10 5,
            FreeBlock.mk 15 7].getD j ⟨0, 0⟩).blockSize.toNat - 6 ≤
            b.blockSize.toNat - 6) ∧
        chooseBlock [FreeBlock.mk 0 10, FreeBlock.mk 10 5,
            FreeBlock.mk 15 7] 6 20 100 =
          (some j, ([FreeBlock.mk 0 10, FreeBlock.mk 10 5,
            FreeBlock.mk 15 7].getD j ⟨0, 0⟩).blockOffset,
            ([FreeBlock.mk 0 10, FreeBlock.mk 10 5,
              FreeBlock.mk 15 7].getD j ⟨0, 0⟩).blockSize.toNat)) ∧
    ((∀ b ∈ [FreeBlock.mk 0 10, FreeBlock.mk 10 5, FreeBlock.mk 15 7],
        b.blockSize.toNat < 6) →
      bestFitIndex [FreeBlock.mk 0 10, FreeBlock.mk 10 5,
        FreeBlock.mk 15 7] 6 = none ∧
      chooseBlock [FreeBlock.mk 0 10, FreeBlock.mk 10 5,
        FreeBlock.mk 15 7] 6 20 100 = (none, 100, 20))) :=
  ⟨by decide,
   C8_best_fit_allocation [FreeBlock.mk 0 10, FreeBlock.mk 10 5,
     FreeBlock.mk 15 7] 6 20 100 (by decide)⟩

end PKVS
